import Mathlib

set_option maxHeartbeats 1000000

/-!
Shallow embedding of the kaiten-api-tools repository: the Markdown renderer
and recursive downloader of src/download-card.mjs, the card-input parser,
and the resource creators (src/create-space.mjs, src/create-board.mjs,
src/create-column.mjs, src/create-card.mjs, and the board-lookup variant of
createCard). Optional JavaScript values are modelled with Option;
JavaScript string truthiness (undefined, null and the empty string are
falsy) is modelled explicitly. External boundaries (the turndown HTML to
Markdown converter, Date toLocaleString, the WHATWG URL parser, and the
HTTP layer) are opaque parameters.
-/

/-- Truthiness of an optional JavaScript string: present and non-empty. -/
def truthyS : Option String → Bool
  | some s => s != ""
  | none => false

/-- Value of an optional JavaScript string, empty when absent. -/
def strD (o : Option String) : String := o.getD ""

/-- First truthy string among a list of optional candidates with a default;
models chained JavaScript fallback such as item.name, else item.title, else
item.text, else a constant. -/
def firstTruthy (dflt : String) : List (Option String) → String
  | [] => dflt
  | o :: rest => if truthyS o then strD o else firstTruthy dflt rest

/-- External converters used by download-card.mjs: the turndown service and
Date toLocaleString. Modelled as opaque functions. -/
structure Converters where
  turndown : String → String
  toLocaleString : Int → String

/-- Owner or member identity fields of a card (username, full_name, email). -/
structure Person where
  username : Option String
  full_name : Option String
  email : Option String
  deriving DecidableEq

/-- A space reference inside card.board.spaces. -/
structure SpaceRef where
  title : String
  primary_path : Bool
  deriving DecidableEq

/-- The card.board object: title plus optional spaces list. -/
structure BoardRef where
  title : String
  spaces : Option (List SpaceRef)
  deriving DecidableEq

/-- A reference carrying only a title (card.column, card.lane). -/
structure TitleRef where
  title : String
  deriving DecidableEq

/-- The card.type object: letter and name. -/
structure CardType where
  letter : String
  name : String
  deriving DecidableEq

/-- A card member: identity fields plus the numeric role type
(role type 2 means responsible). -/
structure Member where
  username : Option String
  full_name : Option String
  email : Option String
  type : Nat
  deriving DecidableEq

/-- A checklist item assignee. -/
structure Assignee where
  username : Option String
  full_name : Option String
  deriving DecidableEq

/-- A checklist item; the three completion flags model the truthiness of
item.checked, item.completed and item.is_checked. -/
structure ChecklistItem where
  checked : Bool
  completed : Bool
  is_checked : Bool
  name : Option String
  title : Option String
  text : Option String
  due_date : Option String
  due : Option String
  assignee : Option Assignee
  deriving DecidableEq

/-- A grouped checklist: optional name or title, items under either the
items key or the checklist_items key. -/
structure Checklist where
  name : Option String
  title : Option String
  items : Option (List ChecklistItem)
  checklist_items : Option (List ChecklistItem)
  deriving DecidableEq

/-- A file attachment of a card. -/
structure FileAttachment where
  id : Nat
  name : Option String
  url : String
  size : Nat
  created : Option String
  deriving DecidableEq

/-- A comment author. -/
structure Author where
  username : Option String
  full_name : Option String
  deriving DecidableEq

/-- A card comment. The created field is modelled as the parsed timestamp
value that new Date(comment.created).getTime() yields. -/
structure Comment where
  id : Option Nat
  author : Option Author
  created : Int
  text : Option String
  deriving DecidableEq

/-- A child card as returned by the children endpoint. -/
structure ChildCard where
  id : Nat
  title : Option String
  statusName : Option String
  typeName : Option String
  typeLetter : String
  children_count : Nat
  children_done : Nat
  deriving DecidableEq

/-- A Kaiten card as consumed by the renderer in downloadCard. statusName
models card.status?.name. -/
structure Card where
  id : Nat
  title : String
  owner : Option Person
  board : Option BoardRef
  column : Option TitleRef
  lane : Option TitleRef
  type : Option CardType
  statusName : Option String
  estimate : Option Nat
  children_count : Nat
  children_done : Nat
  members : Option (List Member)
  description : Option String
  checklists : Option (List Checklist)
  check_lists : Option (List Checklist)
  checklist_items : Option (List ChecklistItem)
  checklistItems : Option (List ChecklistItem)
  files : Option (List FileAttachment)
  deriving DecidableEq

/-- Identity string built from username, full_name and email; models the
ownerInfo and memberInfo accumulation in download-card.mjs lines 192-203 and
245-254: each part appended only when truthy, space separated. -/
def personInfo (username full_name email : Option String) : String :=
  let s := if truthyS username then "@" ++ strD username else ""
  let s := if truthyS full_name then
    (if s != "" then s ++ " " else s) ++ "(" ++ strD full_name ++ ")" else s
  let s := if truthyS email then
    (if s != "" then s ++ " " else s) ++ "<" ++ strD email ++ ">" else s
  s

/-- Comparator applied to members in download-card.mjs lines 238-242:
responsible members (type 2) sort before all others. -/
def memberCmp (a b : Member) : Int :=
  if a.type = 2 ∧ b.type ≠ 2 then -1
  else if a.type ≠ 2 ∧ b.type = 2 then 1
  else 0

/-- The sorted member list. Array.prototype.sort is a stable sort, and for a
consistent comparator every stable sort returns the same list, so it is
modelled by insertion sort with the relation memberCmp a b ≤ 0. -/
def sortedMembersOf (ms : List Member) : List Member :=
  List.insertionSort (fun a b => memberCmp a b ≤ 0) ms

/-- One rendered member entry: identity info, with the ( responsible )
suffix exactly for role type 2 (download-card.mjs lines 244-261). -/
def memberEntry (m : Member) : String :=
  personInfo m.username m.full_name m.email ++
    (if m.type = 2 then " (responsible)" else "")

/-- The comma-joined rendered member list (download-card.mjs line 264). -/
def membersLine (ms : List Member) : String :=
  String.intercalate ", " ((sortedMembersOf ms).map memberEntry)

/-- The Location metadata line (download-card.mjs lines 207-218), emitted
only when board, board.spaces, column and lane are all present. -/
def locationLine (c : Card) : String :=
  match c.board, c.column, c.lane with
  | some b, some col, some lane =>
    match b.spaces with
    | some sps =>
      let spaceTitles := (sps.filter (fun s => s.primary_path)).map (fun s => s.title)
      let loc := String.intercalate " / " spaceTitles
      let loc := if loc != "" then loc ++ " / " else loc
      let loc := loc ++ b.title ++ " / " ++ col.title ++ " (" ++ lane.title ++ ")"
      "- **Location**: " ++ loc ++ "\n"
    | none => ""
  | _, _, _ => ""

/-- Whether a checklist item renders as checked: item.checked, or
item.completed, or item.is_checked (download-card.mjs lines 290 and 323). -/
def effectiveChecked (it : ChecklistItem) : Bool :=
  it.checked || it.completed || it.is_checked

/-- The rendered item label: first truthy of name, title, text, else the
constant Unnamed item. -/
def itemLabel (it : ChecklistItem) : String :=
  firstTruthy "Unnamed item" [it.name, it.title, it.text]

/-- The due-date suffix of a checklist item line. -/
def dueSuffix (it : ChecklistItem) : String :=
  if truthyS it.due_date then " (due: " ++ strD it.due_date ++ ")"
  else if truthyS it.due then " (due: " ++ strD it.due ++ ")"
  else ""

/-- The assignee suffix of a checklist item line. -/
def assigneeSuffix (it : ChecklistItem) : String :=
  match it.assignee with
  | some a =>
    if truthyS a.username then " [@" ++ strD a.username ++ "]"
    else if truthyS a.full_name then " [" ++ strD a.full_name ++ "]"
    else ""
  | none => ""

/-- One rendered checklist bullet line (download-card.mjs lines 289-309 and
322-343). -/
def itemLine (it : ChecklistItem) : String :=
  "- " ++ (if effectiveChecked it then "[x]" else "[ ]") ++ " " ++
    itemLabel it ++ dueSuffix it ++ assigneeSuffix it ++ "\n"

/-- The grouped checklists actually rendered: card.checklists, else
card.check_lists, else empty (download-card.mjs line 274; an empty array is
truthy in JavaScript, so a present empty list stops the fallback). -/
def resolvedChecklists (c : Card) : List Checklist :=
  match c.checklists with
  | some l => l
  | none =>
    match c.check_lists with
    | some l => l
    | none => []

/-- The flat checklist items actually rendered: card.checklist_items, else
card.checklistItems, else empty (download-card.mjs line 275). -/
def resolvedFlatItems (c : Card) : List ChecklistItem :=
  match c.checklist_items with
  | some l => l
  | none =>
    match c.checklistItems with
    | some l => l
    | none => []

/-- Items of one grouped checklist: checklist.items, else
checklist.checklist_items, else empty (download-card.mjs line 287). -/
def clItems (cl : Checklist) : List ChecklistItem :=
  match cl.items with
  | some l => l
  | none =>
    match cl.checklist_items with
    | some l => l
    | none => []

/-- Optional heading of a grouped checklist: emitted when checklist.name or
checklist.title is truthy (download-card.mjs lines 283-285). -/
def clHeading (cl : Checklist) : Option String :=
  if truthyS cl.name then some (strD cl.name)
  else if truthyS cl.title then some (strD cl.title)
  else none

/-- The strings one grouped checklist appends to the document, in order:
optional heading, one bullet line per item, a closing newline. -/
def groupPieces (cl : Checklist) : List String :=
  (match clHeading cl with
   | some h => ["### " ++ h ++ "\n\n"]
   | none => []) ++ (clItems cl).map itemLine ++ ["\n"]

/-- The heading pieces of the flat-item section: the constant Checklist
subsection heading appears exactly when no grouped checklists exist
(download-card.mjs lines 318-320). -/
def flatHeadingPieces (c : Card) : List String :=
  if resolvedChecklists c = [] then ["### Checklist\n\n"] else []

/-- The strings the flat-item part appends, in order (download-card.mjs
lines 317-345). -/
def flatSectionPieces (c : Card) : List String :=
  if resolvedFlatItems c = [] then []
  else flatHeadingPieces c ++ (resolvedFlatItems c).map itemLine ++ ["\n"]

/-- Every string the Checklists section appends to the document, in order
(download-card.mjs lines 277-346). -/
def checklistPieces (c : Card) : List String :=
  if resolvedChecklists c = [] ∧ resolvedFlatItems c = [] then []
  else ["\n## Checklists\n\n"] ++ (resolvedChecklists c).flatMap groupPieces
    ++ flatSectionPieces c

/-- The rendered Checklists section. -/
def renderChecklistsSection (c : Card) : String :=
  String.join (checklistPieces c)

/-- Comparator applied to comments in download-card.mjs lines 353-355:
descending creation timestamp. -/
def commentCmp (a b : Comment) : Int :=
  b.created - a.created

/-- The sorted comment list: Array.prototype.sort is stable and the
comparator is consistent, so it is modelled by insertion sort with the
relation commentCmp a b ≤ 0. The sort operates on a spread copy of the
input array, which is left untouched. -/
def sortedCommentsOf (comments : List Comment) : List Comment :=
  List.insertionSort (fun a b => commentCmp a b ≤ 0) comments

/-- The rendered author of a comment: author full_name, else author
username, else the constant Unknown (download-card.mjs line 358). -/
def commentAuthor (c : Comment) : String :=
  match c.author with
  | some a => firstTruthy "Unknown" [a.full_name, a.username]
  | none => "Unknown"

/-- One rendered comment (download-card.mjs lines 357-363). -/
def renderComment (ext : Converters) (c : Comment) : String :=
  "### By " ++ commentAuthor c ++ " at " ++ ext.toLocaleString c.created ++ "\n\n"
    ++ (match c.text with
        | some t => if t != "" then ext.turndown t else ""
        | none => "") ++ "\n\n"

/-- The rendered Comments section (download-card.mjs lines 349-364): empty
when there are no comments, otherwise a header followed by the comments in
sorted (newest first) order. -/
def renderCommentsSection (ext : Converters) (comments : List Comment) : String :=
  if comments = [] then ""
  else "\n## Comments\n\n" ++ String.join ((sortedCommentsOf comments).map (renderComment ext))

/-- Display name of a file: file.name when truthy, else file_ and the id
(download-card.mjs line 370). -/
def resolvedFileName (f : FileAttachment) : String :=
  if truthyS f.name then strD f.name else "file_" ++ toString f.id

/-- Image extensions recognised by the renderer. -/
def imageExts : List String := ["png", "jpg", "jpeg", "gif", "bmp", "svg"]

/-- Lower-casing of a string, character by character. -/
def strToLower (s : String) : String :=
  String.mk (s.data.map Char.toLower)

/-- Suffix test between strings, on their character lists. -/
def strEndsWith (s suffix : String) : Bool :=
  decide (List.IsSuffix suffix.data s.data)

/-- Case-insensitive image-extension test; models the regular expression
of download-card.mjs line 371, which matches a dot and one of the listed
extensions at the end of the name, ignoring case. -/
def isImage (n : String) : Bool :=
  imageExts.any (fun e => strEndsWith (strToLower n) ("." ++ e))

/-- The metadata header of one rendered file entry. -/
def fileHeaderPiece (f : FileAttachment) : String :=
  "### " ++ resolvedFileName f ++ "\n\n"
    ++ "- **Source URL**: " ++ f.url ++ "\n"
    ++ "- **Size**: " ++ toString f.size ++ " bytes\n"
    ++ (if truthyS f.created then "- **Created**: " ++ strD f.created ++ "\n" else "")

/-- The embedded image reference emitted for image files. -/
def imageEmbedPiece (f : FileAttachment) : String :=
  "\n<img src=\"./files/" ++ resolvedFileName f ++ "\" alt=\"" ++ resolvedFileName f ++ "\" />\n"

/-- The Markdown link emitted for non-image files. -/
def fileLinkPiece (f : FileAttachment) : String :=
  "\n[" ++ resolvedFileName f ++ "](./files/" ++ resolvedFileName f ++ ")\n"

/-- One rendered file entry (download-card.mjs lines 369-384). -/
def renderFile (f : FileAttachment) : String :=
  fileHeaderPiece f
    ++ (if isImage (resolvedFileName f) then imageEmbedPiece f else fileLinkPiece f)
    ++ "\n"

/-- The rendered Files section (download-card.mjs lines 367-385). -/
def renderFilesSection (c : Card) : String :=
  match c.files with
  | some fs => if fs = [] then "" else "## Files\n\n" ++ String.join (fs.map renderFile)
  | none => ""

/-- One rendered child bullet (download-card.mjs lines 391-410). -/
def renderChild (ch : ChildCard) : String :=
  "- [" ++ (if truthyS ch.title then strD ch.title else "Card " ++ toString ch.id)
    ++ "](./children/" ++ toString ch.id ++ "/card.md)"
    ++ (if truthyS ch.statusName then " - " ++ strD ch.statusName else "")
    ++ (if truthyS ch.typeName then " [" ++ ch.typeLetter ++ "]" else "")
    ++ (if ch.children_count > 0 then
         " (" ++ toString ch.children_done ++ "/" ++ toString ch.children_count ++ " subtasks)"
       else "")
    ++ "\n"

/-- The rendered Children Cards section (download-card.mjs lines 388-412). -/
def renderChildrenSection (childrenData : List ChildCard) : String :=
  if childrenData = [] then ""
  else "\n## Children Cards\n\n" ++ String.join (childrenData.map renderChild) ++ "\n"

/-- The full Markdown renderer of downloadCard, download-card.mjs lines
188-412: the document is accumulated by appending each piece in source
order. -/
def renderCard (ext : Converters) (card : Card) (comments : List Comment)
    (childrenData : List ChildCard) : String :=
  let md := "# " ++ card.title ++ "\n\n"
  let md := md ++ ("- **ID**: " ++ toString card.id ++ "\n")
  let md := match card.owner with
    | some o => md ++ ("- **Owner**: " ++ personInfo o.username o.full_name o.email ++ "\n")
    | none => md
  let md := md ++ locationLine card
  let md := match card.type with
    | some t => md ++ ("- **Type**: [" ++ t.letter ++ "] " ++ t.name ++ "\n")
    | none => md
  let md := if truthyS card.statusName then
    md ++ ("- **Status**: " ++ strD card.statusName ++ "\n") else md
  let md := match card.estimate with
    | some e => md ++ ("- **Estimate**: " ++ toString e ++ "\n")
    | none => md
  let md := if card.children_count > 0 then
    md ++ ("- **Children**: " ++ toString card.children_done ++ "/"
      ++ toString card.children_count ++ " completed\n") else md
  let md := match card.members with
    | some ms => if ms = [] then md else md ++ ("- **Members**: " ++ membersLine ms ++ "\n")
    | none => md
  let md := md ++ "\n## Description\n\n"
  let md := md ++ (match card.description with
    | some d => if d != "" then ext.turndown d else ""
    | none => "")
  let md := md ++ "\n"
  let md := md ++ renderChecklistsSection card
  let md := md ++ renderCommentsSection ext comments
  let md := md ++ renderFilesSection card
  let md := md ++ renderChildrenSection childrenData
  md

/-- A card populated with a title and an id only, every optional field
absent and every counter zero. -/
def minimalCard (title : String) (id : Nat) : Card :=
  { id := id
    title := title
    owner := none
    board := none
    column := none
    lane := none
    type := none
    statusName := none
    estimate := none
    children_count := 0
    children_done := 0
    members := none
    description := none
    checklists := none
    check_lists := none
    checklist_items := none
    checklistItems := none
    files := none }

/-- The demo card of the specification scenario. -/
def demoCard : Card := minimalCard "Demo" 1

/-- An identity bundle of external converters, used for closed evaluations. -/
def extId : Converters :=
  { turndown := fun s => s
    toLocaleString := fun _ => "" }

/-- Components of a parsed URL as produced by the WHATWG URL parser, which
is treated as an opaque boundary: protocol keeps its trailing colon, as in
the JavaScript URL object. -/
structure UrlParts where
  protocol : String
  host : String
  pathname : String
  deriving DecidableEq

/-- Whitespace trimming on both ends, character by character; models
String.prototype.trim. -/
def jsTrim (s : String) : String :=
  String.mk (((s.data.dropWhile Char.isWhitespace).reverse.dropWhile
    Char.isWhitespace).reverse)

/-- Test for one or more ASCII digits; models the regular expression that
download-card.mjs applies to the trimmed input and to extracted ids. -/
def isDigits (s : String) : Bool :=
  s.length > 0 && s.data.all Char.isDigit

/-- Substring containment test; models String.prototype.includes. -/
def containsSub (s pat : String) : Bool :=
  decide (List.IsInfix pat.data s.data)

/-- Removal of the first occurrence of a character; models the
single-replacement String.prototype.replace with an empty replacement. -/
def removeFirstChar (c : Char) : List Char → List Char
  | [] => []
  | x :: xs => if x = c then xs else x :: removeFirstChar c xs

/-- The error message parseCardInput raises for any malformed URL input. -/
def invalidUrlMsg (input : String) : String :=
  "Invalid URL format: " ++ input ++ ". Expected format: https://company.kaiten.ru/123456, https://company.kaiten.ru/space/xxx/boards/card/123456, or just card ID"

/-- The card-input parser of download-card.mjs lines 74-108. A bare numeric
input needs the configured base URL (envBase models the
KAITEN_API_BASE_URL environment variable, absent or empty being falsy);
otherwise the input is parsed as a URL by the opaque urlParse boundary, the
card id is extracted from one of the two supported path shapes, and every
failure inside the URL branch is reported as the invalid-URL error, exactly
as the surrounding try/catch does. The function is pure: no request is
issued on any path. -/
def parseCardInput (urlParse : String → Option UrlParts) (envBase : Option String)
    (input : String) : Except String (String × String) :=
  if isDigits (jsTrim input) then
    if truthyS envBase then .ok (jsTrim input, strD envBase)
    else .error "Set environment variable KAITEN_API_BASE_URL for card ID input"
  else
    match urlParse input with
    | none => .error (invalidUrlMsg input)
    | some u =>
      let cardIdOpt : Option String :=
        if containsSub u.pathname "/boards/card/" then
          let parts := u.pathname.splitOn "/"
          match parts.findIdx? (fun p => p == "card") with
          | some ci => parts.get? (ci + 1)
          | none => none
        else some (jsTrim (String.mk (removeFirstChar '/' u.pathname.data)))
      match cardIdOpt with
      | some cid =>
        if isDigits cid then .ok (cid, u.protocol ++ "//" ++ u.host ++ "/api/v1")
        else .error (invalidUrlMsg input)
      | none => .error (invalidUrlMsg input)

/-- An HTTP request about to be issued: method, url and a key-value view of
the JSON payload. -/
structure Request where
  method : String
  url : String
  payload : List (String × String)
  deriving DecidableEq

/-- Validation and request construction of createSpace
(src/create-space.mjs lines 44-59): the result is the first POST request
issued, and an error result means the function throws before any network
call. The retry against a latest base happens only after this first request
fails and is outside this model. -/
def createSpace (name apiBase : String) : Except String Request :=
  if name = "" then .error "name is required"
  else if apiBase = "" then .error "Set environment variable KAITEN_API_BASE_URL"
  else .ok ⟨"POST", apiBase ++ "/spaces", [("title", name)]⟩

/-- Validation and request construction of createBoard
(src/create-board.mjs lines 42-57). -/
def createBoard (spaceId name apiBase : String) : Except String Request :=
  if spaceId = "" then .error "spaceId is required"
  else if name = "" then .error "name is required"
  else if apiBase = "" then .error "Set environment variable KAITEN_API_BASE_URL"
  else .ok ⟨"POST", apiBase ++ "/spaces/" ++ spaceId ++ "/boards",
    [("title", name), ("columns", "[]"), ("lanes", "[]")]⟩

/-- Replacement of a trailing v1 segment by latest; models the anchored
regular-expression replace used by the creators. -/
def replaceV1WithLatest (b : String) : String :=
  if b.endsWith "/v1" then b.dropRight 3 ++ "/latest" else b

/-- Validation and request construction of createColumn
(src/create-column.mjs lines 42-53). -/
def createColumn (boardId title apiBase : String) : Except String Request :=
  if boardId = "" then .error "boardId is required"
  else if title = "" then .error "title is required"
  else if apiBase = "" then .error "Set environment variable KAITEN_API_BASE_URL"
  else .ok ⟨"POST", replaceV1WithLatest apiBase ++ "/boards/" ++ boardId ++ "/columns",
    [("title", title)]⟩

/-- Validation and request construction of createCard
(src/create-card.mjs lines 43-59). -/
def createCard (boardId name apiBase : String) : Except String Request :=
  if boardId = "" then .error "boardId is required"
  else if name = "" then .error "name is required"
  else if apiBase = "" then .error "Set environment variable KAITEN_API_BASE_URL"
  else .ok ⟨"POST", replaceV1WithLatest apiBase ++ "/cards",
    [("title", name), ("board_id", boardId)]⟩

/-- A column or lane reference in board metadata. -/
structure ColumnRef where
  id : Nat
  deriving DecidableEq

/-- Board metadata as fetched by the board-lookup variant of createCard. -/
structure BoardData where
  space_id : Option Nat
  columns : Option (List ColumnRef)
  lanes : Option (List ColumnRef)
  deriving DecidableEq

/-- Truthiness of an optional JavaScript number: present and non-zero. -/
def truthyN : Option Nat → Bool
  | some n => n != 0
  | none => false

/-- The id of the first element of an optional list; models the optional
chain columns, index 0, id. -/
def headId : Option (List ColumnRef) → Option Nat
  | some (c :: _) => some c.id
  | _ => none

/-- The board-lookup variant of createCard (src/unnamed/part_003 lines
38-60): after validation it fetches the parent board metadata, resolves the
space id plus the first column and first lane, and posts the card carrying
those resolved identifiers. The ok result lists the issued requests in
order; getBoard is the opaque HTTP boundary for the board fetch. -/
def createCardWithBoardLookup (getBoard : String → Except String BoardData)
    (boardId name apiBase : String) : Except String (List Request) :=
  if boardId = "" then .error "boardId is required"
  else if name = "" then .error "name is required"
  else if apiBase = "" then .error "Set environment variable KAITEN_API_BASE_URL"
  else
    match getBoard boardId with
    | .error e => .error e
    | .ok bd =>
      let spaceId := bd.space_id
      let columnId := headId bd.columns
      let laneId := headId bd.lanes
      if truthyN spaceId && truthyN columnId && truthyN laneId then
        .ok [⟨"GET", apiBase ++ "/boards/" ++ boardId, []⟩,
          ⟨"POST", apiBase ++ "/spaces/" ++ toString (spaceId.getD 0)
              ++ "/boards/" ++ boardId ++ "/cards",
            [("title", name), ("column_id", toString (columnId.getD 0)),
             ("lane_id", toString (laneId.getD 0))]⟩]
      else .error "Board metadata missing space_id, columns, or lanes"

/-- The HTTP boundary of the download path: per-card, per-comments,
per-children fetch results and per-url attachment download results. -/
structure FetchEnv where
  fetchCard : Nat → Except String Card
  fetchComments : Nat → Except String (List Comment)
  fetchChildren : Nat → Except String (List ChildCard)
  downloadFile : String → Except String Unit

/-- Comment fetching of download-card.mjs lines 118-131: a failed fetch is
caught, logged and reported as an empty list. -/
def fetchCardComments (env : FetchEnv) (cardId : Nat) : List Comment :=
  match env.fetchComments cardId with
  | .ok l => l
  | .error _ => []

/-- Children fetching of download-card.mjs lines 141-154: a failed fetch is
caught, logged and reported as an empty list. -/
def fetchCardChildren (env : FetchEnv) (cardId : Nat) : List ChildCard :=
  match env.fetchChildren cardId with
  | .ok l => l
  | .error _ => []

/-- The value downloadCard resolves with. -/
structure DlResult where
  card : Card
  markdown : String
  comments : List Comment
  children : List ChildCard

/-- The downloadCard function of download-card.mjs lines 165-426: a card
fetch failure is rethrown unmodified, comments are fetched through the
swallowing fetchCardComments, children are fetched only when requested and
the children counter is positive, and the result carries the card, its
rendered Markdown, the comments as fetched and the children. -/
def downloadCard (env : FetchEnv) (ext : Converters) (cardId : Nat)
    (includeChildren : Bool) : Except String DlResult :=
  match env.fetchCard cardId with
  | .error e => .error e
  | .ok card =>
    let comments := fetchCardComments env cardId
    let childrenData := if includeChildren && decide (card.children_count > 0)
      then fetchCardChildren env cardId else []
    .ok ⟨card, renderCard ext card comments childrenData, comments, childrenData⟩

/-- The id part of a per-comment file name: the comment id when truthy,
else the constant unknown (download-card.mjs line 470). -/
def commentIdPart (c : Comment) : String :=
  match c.id with
  | some n => if n != 0 then toString n else "unknown"
  | none => "unknown"

/-- The file name of the comment at zero-based fetch index i. -/
def commentFileName (i : Nat) (c : Comment) : String :=
  "comment_" ++ toString (i + 1) ++ "_" ++ commentIdPart c ++ ".json"

/-- The per-comment JSON file names written by the downloader, in fetch
order with ordinals starting at 1 (download-card.mjs lines 468-473). -/
def commentFileNamesFrom (comments : List Comment) : List String :=
  comments.enum.map (fun p => commentFileName p.1 p.2)

/-- The attachment downloads that succeed, in order; a failed download is
caught and skipped (download-card.mjs lines 482-492). -/
def downloadedFilesOf (env : FetchEnv) (card : Card) : List String :=
  (card.files.getD []).filterMap (fun f =>
    match env.downloadFile f.url with
    | .ok _ => some (resolvedFileName f)
    | .error _ => none)

/-- The in-memory tree downloadCardRecursive returns: the card, the comment
file names written, the attachment names downloaded, and the successfully
downloaded children. -/
inductive RecNode where
  | mk (card : Card) (commentFiles : List String) (downloadedFiles : List String)
      (children : List RecNode)

/-- Card of a downloaded node. -/
def RecNode.card : RecNode → Card
  | .mk c _ _ _ => c

/-- Comment file names of a downloaded node. -/
def RecNode.commentFiles : RecNode → List String
  | .mk _ cf _ _ => cf

/-- Downloaded attachment names of a downloaded node. -/
def RecNode.downloadedFiles : RecNode → List String
  | .mk _ _ df _ => df

/-- Downloaded children of a node. -/
def RecNode.children : RecNode → List RecNode
  | .mk _ _ _ ch => ch

/-- The downloadCardRecursive function of download-card.mjs lines 439-523:
the current card is downloaded (children included), its files are written,
comments are saved under their fetch-order names, attachments are
downloaded with per-file failures skipped, and when children exist and the
current depth is below the bound each child is downloaded recursively one
depth deeper, a failed child being caught and dropped without aborting its
siblings or the parent. Termination follows from the strictly increasing
depth counter bounded by maxDepth. -/
def downloadCardRecursive (env : FetchEnv) (ext : Converters) (cardId : Nat)
    (maxDepth currentDepth : Nat) : Except String RecNode :=
  match downloadCard env ext cardId true with
  | .error e => .error e
  | .ok r =>
    if h : r.children ≠ [] ∧ currentDepth < maxDepth then
      let kids := (r.children.map (fun ch =>
        downloadCardRecursive env ext ch.id maxDepth (currentDepth + 1))).filterMap
          Except.toOption
      .ok (.mk r.card (commentFileNamesFrom r.comments) (downloadedFilesOf env r.card) kids)
    else
      .ok (.mk r.card (commentFileNamesFrom r.comments) (downloadedFilesOf env r.card) [])
termination_by maxDepth - currentDepth
decreasing_by omega

/-- A finite card tree: the card graph reachable from a root when every
fetch succeeds, each node carrying its card id. -/
inductive CardTree where
  | node (id : Nat) (children : List CardTree)

mutual

/-- Paths of ids from the root to every node of a tree, the root path
first, children in order. -/
def nodePaths : CardTree → List (List Nat)
  | .node i cs => [[i]] ++ (nodePathsL cs).map (fun p => i :: p)

/-- Paths of ids of every node of a forest. -/
def nodePathsL : List CardTree → List (List Nat)
  | [] => []
  | t :: ts => nodePaths t ++ nodePathsL ts

end

mutual

/-- The card directories downloadCardRecursive creates when the fetches
follow the given tree, as id paths relative to the output directory (the
intervening children path segment is elided). Each listed directory
receives card.md and card.json (download-card.mjs lines 450-459); children
are recursed into only while the current depth is below maxDepth
(download-card.mjs line 497). -/
def downloadDirs : CardTree → Nat → Nat → List (List Nat)
  | .node i cs, maxDepth, currentDepth =>
    [[i]] ++ (if currentDepth < maxDepth then
      (downloadDirsL cs maxDepth (currentDepth + 1)).map (fun p => i :: p)
    else [])

/-- Directories created for a forest of children at the given depth. -/
def downloadDirsL : List CardTree → Nat → Nat → List (List Nat)
  | [], _, _ => []
  | t :: ts, maxDepth, d => downloadDirs t maxDepth d ++ downloadDirsL ts maxDepth d

end

lemma strData_append (a b : String) : (a ++ b).data = a.data ++ b.data := by
  cases a; cases b; rfl

/-- Bullet-piece test: a rendered piece is a checklist bullet exactly when
it opens with a dash, a space and an opening bracket. -/
def isBulletPiece (p : String) : Bool :=
  p.data.take 3 == ['-', ' ', '[']

lemma itemLine_isBullet (it : ChecklistItem) : isBulletPiece (itemLine it) = true := by
  unfold isBulletPiece itemLine
  cases h : effectiveChecked it <;>
    simp [h, strData_append, List.take]

lemma itemLine_take4 (it : ChecklistItem) :
    (itemLine it).data.take 4 = ['-', ' ', '[', if effectiveChecked it then 'x' else ' '] := by
  unfold itemLine
  cases h : effectiveChecked it <;>
    simp [h, strData_append, List.take]

lemma heading_not_bullet (h : String) : isBulletPiece ("### " ++ h ++ "\n\n") = false := by
  unfold isBulletPiece
  simp [strData_append, List.take]

lemma newline_not_bullet : isBulletPiece "\n" = false := by decide

lemma sectionHeader_not_bullet : isBulletPiece "\n## Checklists\n\n" = false := by decide

lemma flatHeading_not_bullet : isBulletPiece "### Checklist\n\n" = false := by decide

lemma countP_itemLines (l : List ChecklistItem) :
    (l.map itemLine).countP isBulletPiece = l.length := by
  induction l with
  | nil => rfl
  | cons x t ih => simp [List.countP_cons, itemLine_isBullet, ih]

lemma countP_groupPieces (cl : Checklist) :
    (groupPieces cl).countP isBulletPiece = (clItems cl).length := by
  unfold groupPieces
  cases hh : clHeading cl <;>
    simp [List.countP_append, List.countP_cons, countP_itemLines,
      heading_not_bullet, newline_not_bullet, itemLine_isBullet]

lemma countP_flatMap_groups (cls : List Checklist) :
    (cls.flatMap groupPieces).countP isBulletPiece = (cls.flatMap clItems).length := by
  induction cls with
  | nil => rfl
  | cons c t ih => simp [List.flatMap_cons, List.countP_append, countP_groupPieces, ih]

lemma orderedInsert_resp (x : Member) (hx : x.type = 2) (l : List Member) :
    List.orderedInsert (fun a b => memberCmp a b ≤ 0) x l = x :: l := by
  cases l with
  | nil => rfl
  | cons b t =>
    have h : memberCmp x b ≤ 0 := by
      by_cases hb : b.type = 2 <;> simp [memberCmp, hx, hb]
    simp [List.orderedInsert, h]

lemma orderedInsert_nonresp (x : Member) (hx : ¬ x.type = 2) :
    ∀ (R N : List Member), (∀ a ∈ R, a.type = 2) → (∀ a ∈ N, ¬ a.type = 2) →
    List.orderedInsert (fun a b => memberCmp a b ≤ 0) x (R ++ N) = R ++ x :: N := by
  intro R
  induction R with
  | nil =>
    intro N _ hN
    cases N with
    | nil => rfl
    | cons n t =>
      have hn : ¬ n.type = 2 := hN n (by simp)
      have h : memberCmp x n ≤ 0 := by simp [memberCmp, hx, hn]
      simp [List.orderedInsert, h]
  | cons r R' ih =>
    intro N hR hN
    have hr : r.type = 2 := hR r (by simp)
    have h : ¬ memberCmp x r ≤ 0 := by simp [memberCmp, hx, hr]
    simp only [List.cons_append, List.orderedInsert, h, if_false]
    exact congrArg (r :: .) (ih N (fun a ha => hR a (by simp [ha])) hN)

lemma sortedMembers_partition (ms : List Member) :
    sortedMembersOf ms
      = ms.filter (fun m => m.type == 2) ++ ms.filter (fun m => !(m.type == 2)) := by
  induction ms with
  | nil => rfl
  | cons x t ih =>
    unfold sortedMembersOf at *
    simp only [List.insertionSort]
    rw [ih]
    by_cases hx : x.type = 2
    · rw [orderedInsert_resp x hx]
      simp [List.filter_cons, hx]
    · have hR : ∀ a ∈ t.filter (fun m => m.type == 2), a.type = 2 := fun a ha => by
        have := List.of_mem_filter ha; simpa using this
      have hN : ∀ a ∈ t.filter (fun m => !(m.type == 2)), ¬ a.type = 2 := fun a ha => by
        have := List.of_mem_filter ha; simpa using this
      rw [orderedInsert_nonresp x hx _ _ hR hN]
      simp [List.filter_cons, hx]

/-- C1: for the card with id 1 and title Demo and nothing else populated the
renderer produces exactly the scenario string, and for every card with no
optional fields populated the output is exactly an H1 title, the ID line and
an empty Description section, with no other section headers. -/
theorem c1_minimal_card_render :
    (∀ ext : Converters,
      renderCard ext demoCard [] [] = "# Demo\n\n- **ID**: 1\n\n## Description\n\n\n")
    ∧ (∀ (ext : Converters) (t : String) (i : Nat),
      renderCard ext (minimalCard t i) [] [] =
        "# " ++ t ++ "\n\n" ++ "- **ID**: " ++ toString i ++ "\n"
          ++ "\n## Description\n\n" ++ "\n") := by
  constructor
  · intro ext; rfl
  · intro ext t i
    simp [renderCard, minimalCard, locationLine, truthyS, renderChecklistsSection,
      checklistPieces, resolvedChecklists, resolvedFlatItems, renderCommentsSection,
      renderFilesSection, renderChildrenSection, String.append_assoc, String.join,
      String.append_empty]
    rw [← String.append_assoc "\n\n" "- **ID**: "]
    simp [String.append_assoc]

/-- C2: for every checklist input the number of bullet pieces rendered under
the Checklists section equals the total item count across grouped checklists
plus the flat list, every bullet opens with the checked mark exactly when
checked or completed or is_checked is truthy, and the flat Checklist
subsection heading appears only when no grouped checklists exist. -/
theorem c2_checklist_bullets (c : Card) :
    (checklistPieces c).countP isBulletPiece
        = ((resolvedChecklists c).flatMap clItems).length + (resolvedFlatItems c).length
    ∧ (∀ it : ChecklistItem, (itemLine it).data.take 4
        = ['-', ' ', '[', if effectiveChecked it then 'x' else ' '])
    ∧ (resolvedChecklists c ≠ [] → "### Checklist\n\n" ∉ flatSectionPieces c)
    ∧ (resolvedChecklists c = [] → resolvedFlatItems c ≠ [] →
        flatSectionPieces c = "### Checklist\n\n" :: ((resolvedFlatItems c).map itemLine ++ ["\n"])) := by
  refine ⟨?_, itemLine_take4, ?_, ?_⟩
  · unfold checklistPieces flatSectionPieces flatHeadingPieces
    by_cases h1 : resolvedChecklists c = [] <;> by_cases h2 : resolvedFlatItems c = [] <;>
      simp [h1, h2, List.countP_append, List.countP_cons, countP_flatMap_groups,
        countP_itemLines, newline_not_bullet, sectionHeader_not_bullet,
        flatHeading_not_bullet, itemLine_isBullet]
  · intro h1
    by_cases h2 : resolvedFlatItems c = []
    · simp [flatSectionPieces, h2]
    · simp only [flatSectionPieces, flatHeadingPieces, h1, h2, if_neg, if_false]
      simp only [List.nil_append, List.mem_append, List.mem_map, List.mem_singleton]
      rintro (⟨it, _, he⟩ | he)
      · have hb := itemLine_isBullet it
        rw [he] at hb
        exact absurd hb (by decide)
      · exact absurd he (by decide)
  · intro h1 h2
    simp [flatSectionPieces, flatHeadingPieces, h1, h2]

/-- C3: the rendered comment order is non-increasing in the creation
timestamp, the Comments section being built from the stably sorted copy of
the fetched comments. -/
theorem c3_comments_newest_first (ext : Converters) (comments : List Comment) :
    List.Pairwise (fun a b => b.created ≤ a.created) (sortedCommentsOf comments)
    ∧ renderCommentsSection ext comments = (if comments = [] then "" else
        "\n## Comments\n\n" ++ String.join ((sortedCommentsOf comments).map (renderComment ext))) := by
  constructor
  · haveI : IsTotal Comment (fun a b => commentCmp a b ≤ 0) :=
      ⟨fun a b => by simp only [commentCmp]; omega⟩
    haveI : IsTrans Comment (fun a b => commentCmp a b ≤ 0) :=
      ⟨fun a b c hab hbc => by simp only [commentCmp] at *; omega⟩
    have hs := List.sorted_insertionSort (fun a b => commentCmp a b ≤ 0) comments
    exact hs.imp (fun {a b} h => by simp only [commentCmp] at h; omega)
  · rfl

/-- C4: the renderer emits an embedded image reference exactly when the
display name ends with one of the six image extensions matched case
insensitively, and a Markdown link otherwise; photo.PNG counts as an
image. -/
theorem c4_files_image_embedding (f : FileAttachment) :
    (isImage (resolvedFileName f) = true ↔
      ∃ e ∈ imageExts, strEndsWith (strToLower (resolvedFileName f)) ("." ++ e) = true)
    ∧ renderFile f = fileHeaderPiece f
        ++ (if isImage (resolvedFileName f) then imageEmbedPiece f else fileLinkPiece f) ++ "\n"
    ∧ isImage "photo.PNG" = true ∧ isImage "notes.txt" = false := by
  refine ⟨?_, rfl, by decide, by decide⟩
  simp [isImage, List.any_eq_true]

/-- C5: the rendered member list places every responsible member (role type
2) before all others, keeps the original relative order inside each group,
and attaches the responsible suffix exactly to the role-type-2 members. -/
theorem c5_members_responsible_first (ms : List Member) :
    sortedMembersOf ms
        = ms.filter (fun m => m.type == 2) ++ ms.filter (fun m => !(m.type == 2))
    ∧ membersLine ms = String.intercalate ", "
        (((ms.filter (fun m => m.type == 2)).map memberEntry)
          ++ ((ms.filter (fun m => !(m.type == 2))).map memberEntry))
    ∧ ∀ m : Member, memberEntry m = personInfo m.username m.full_name m.email
        ++ (if m.type = 2 then " (responsible)" else "") := by
  refine ⟨sortedMembers_partition ms, ?_, fun m => rfl⟩
  unfold membersLine
  rw [sortedMembers_partition ms, List.map_append]

lemma nodePaths_mem_length (t : CardTree) (p : List Nat) (hp : p ∈ nodePaths t) :
    1 ≤ p.length := by
  obtain ⟨i, cs⟩ := t
  simp only [nodePaths, List.cons_append, List.nil_append, List.mem_cons, List.mem_map] at hp
  rcases hp with rfl | ⟨q, _, rfl⟩ <;> simp

lemma nodePathsL_mem_length (cs : List CardTree) (p : List Nat) (hp : p ∈ nodePathsL cs) :
    1 ≤ p.length := by
  induction cs with
  | nil => simp [nodePathsL] at hp
  | cons t ts ih =>
    simp only [nodePathsL, List.mem_append] at hp
    rcases hp with h | h
    · exact nodePaths_mem_length t p h
    · exact ih h

lemma downloadDirsL_eq (M : Nat) (cs : List CardTree) :
    ∀ (d : Nat), d ≤ M →
    (∀ c ∈ cs, ∀ d2, d2 ≤ M →
      downloadDirs c M d2 = (nodePaths c).filter (fun p => p.length + d2 ≤ M + 1)) →
    downloadDirsL cs M d = (nodePathsL cs).filter (fun p => p.length + d ≤ M + 1) := by
  induction cs with
  | nil => intro d _ _; rfl
  | cons t ts ih =>
    intro d hd hrec
    simp only [downloadDirsL, nodePathsL, List.filter_append]
    rw [hrec t (by simp) d hd, ih d hd (fun c hc => hrec c (by simp [hc]))]

theorem downloadDirs_eq : ∀ (t : CardTree) (M d : Nat), d ≤ M →
    downloadDirs t M d = (nodePaths t).filter (fun p => p.length + d ≤ M + 1)
  | .node i cs, M, d, hd => by
    have hrec : ∀ c ∈ cs, ∀ d2, d2 ≤ M →
        downloadDirs c M d2 = (nodePaths c).filter (fun p => p.length + d2 ≤ M + 1) :=
      fun c _ d2 hd2 => downloadDirs_eq c M d2 hd2
    simp only [downloadDirs, nodePaths]
    rw [List.filter_append]
    have h1 : ([[i]] : List (List Nat)).filter (fun p => p.length + d ≤ M + 1) = [[i]] := by
      simp
      omega
    rw [h1]
    by_cases h : d < M
    · simp only [h, if_true]
      rw [downloadDirsL_eq M cs (d + 1) h hrec, List.filter_map]
      refine congrArg ([[i]] ++ .) ?_
      exact congrArg (List.map (fun p => i :: p)) (List.filter_congr (fun p _ => by
        simp only [Function.comp_apply, List.length_cons]
        exact decide_eq_decide.mpr (by omega)))
    · have h2 : (List.map (fun p => i :: p) (nodePathsL cs)).filter
          (fun p => p.length + d ≤ M + 1) = [] := by
        rw [List.filter_eq_nil_iff]
        intro p hp
        obtain ⟨q, hq, rfl⟩ := List.mem_map.mp hp
        have := nodePathsL_mem_length cs q hq
        simp
        omega
      simp only [h, if_false]
      rw [h2]

/-- C6: for every finite card tree and every depth bound, the recursive
downloader started at depth 0 (with every fetch succeeding) terminates, and
the card directories it creates, each holding card.md and card.json, are
exactly those of the nodes at depth at most the bound: a path of length
k + 1 is a node at depth k, so the filter keeps precisely the nodes at
depth at most M, which covers every node at depth up to min of the tree
depth and M, and nothing deeper than M. Termination is witnessed by
downloadDirs being a total function. -/
theorem c6_recursive_depth_bound (t : CardTree) (M : Nat) :
    downloadDirs t M 0 = (nodePaths t).filter (fun p => p.length ≤ M + 1) := by
  have h := downloadDirs_eq t M 0 (Nat.zero_le M)
  simpa using h

lemma downloadCard_ok_eq (env : FetchEnv) (ext : Converters) (id : Nat) (inc : Bool)
    (card : Card) (h : env.fetchCard id = .ok card) :
    downloadCard env ext id inc = .ok
      ⟨card,
       renderCard ext card (fetchCardComments env id)
         (if inc && decide (card.children_count > 0) then fetchCardChildren env id else []),
       fetchCardComments env id,
       (if inc && decide (card.children_count > 0) then fetchCardChildren env id else [])⟩ := by
  simp [downloadCard, h]

/-- An environment whose comments fetch always fails while every other
operation succeeds. -/
def envCommentsFail : FetchEnv :=
  { fetchCard := fun _ => .ok demoCard
    fetchComments := fun _ => .error "comments fetch failed"
    fetchChildren := fun _ => .ok []
    downloadFile := fun _ => .ok () }

/-- An environment whose card fetch always fails. -/
def envCardFail : FetchEnv :=
  { fetchCard := fun _ => .error "card fetch failed"
    fetchComments := fun _ => .ok []
    fetchChildren := fun _ => .ok []
    downloadFile := fun _ => .ok () }

/-- A one-child tree: card 1 has a single child with id 2. -/
def childDemo : ChildCard := ⟨2, some "Child", none, none, "", 0, 0⟩

/-- The parent card of the one-child environment. -/
def parentCard : Card := { minimalCard "Parent" 1 with children_count := 1 }

/-- An environment describing a parent card 1 with one child card 2, every
fetch succeeding. -/
def envParent : FetchEnv :=
  { fetchCard := fun i => if i = 1 then .ok parentCard else .ok (minimalCard "Child" 2)
    fetchComments := fun _ => .ok []
    fetchChildren := fun i => if i = 1 then .ok [childDemo] else .ok []
    downloadFile := fun _ => .ok () }

/-- The downloadCard result for card 1 in the one-child environment. -/
def parentResult : DlResult :=
  ⟨parentCard,
   renderCard extId parentCard (fetchCardComments envParent 1)
     (if true && decide (parentCard.children_count > 0) then fetchCardChildren envParent 1 else []),
   fetchCardComments envParent 1,
   (if true && decide (parentCard.children_count > 0) then fetchCardChildren envParent 1 else [])⟩

/-- C7 counterexample: a comments-fetch failure is neither a
per-attachment-download nor a per-child-card-download failure, yet it is
swallowed: downloadCard still resolves, with an empty comments list, so the
failure classes listed by the claim are not the only swallowed ones. -/
theorem c7_counterexample_comments_failure_swallowed :
    envCommentsFail.fetchComments 1 = .error "comments fetch failed"
    ∧ downloadCard envCommentsFail extId 1 false
        = .ok ⟨demoCard, "# Demo\n\n- **ID**: 1\n\n## Description\n\n\n", [], []⟩ :=
  ⟨rfl, rfl⟩

/-- C7 amended: library calls propagate a card-fetch failure unmodified, in
both downloadCard and downloadCardRecursive; comments-fetch and
children-fetch failures, per-attachment-download failures and
per-child-card-download failures are caught and logged without aborting
sibling downloads or the success of the parent. -/
theorem c7_error_propagation_amended :
    (∀ (env : FetchEnv) (ext : Converters) (id : Nat) (inc : Bool) (e : String),
      env.fetchCard id = .error e → downloadCard env ext id inc = .error e)
    ∧ (∀ (env : FetchEnv) (ext : Converters) (id M d : Nat) (e : String),
      env.fetchCard id = .error e → downloadCardRecursive env ext id M d = .error e)
    ∧ (∀ (env : FetchEnv) (ext : Converters) (id : Nat) (inc : Bool) (card : Card),
      env.fetchCard id = .ok card →
      downloadCard env ext id inc = .ok
        ⟨card,
         renderCard ext card (fetchCardComments env id)
           (if inc && decide (card.children_count > 0) then fetchCardChildren env id else []),
         fetchCardComments env id,
         (if inc && decide (card.children_count > 0) then fetchCardChildren env id else [])⟩)
    ∧ (∀ (env : FetchEnv) (ext : Converters) (id M d : Nat) (card : Card),
      env.fetchCard id = .ok card → (downloadCardRecursive env ext id M d).isOk = true)
    ∧ (∀ (env : FetchEnv) (ext : Converters) (id M d : Nat) (r : DlResult),
      downloadCard env ext id true = .ok r → r.children ≠ [] → d < M →
      downloadCardRecursive env ext id M d = .ok (.mk r.card (commentFileNamesFrom r.comments)
        (downloadedFilesOf env r.card)
        ((r.children.map (fun ch => downloadCardRecursive env ext ch.id M (d + 1))).filterMap
          Except.toOption))) := by
  refine ⟨?_, ?_, ?_, ?_, ?_⟩
  · intro env ext id inc e h
    simp [downloadCard, h]
  · intro env ext id M d e h
    rw [downloadCardRecursive]
    simp [downloadCard, h]
  · intro env ext id inc card h
    exact downloadCard_ok_eq env ext id inc card h
  · intro env ext id M d card h
    cases hr : downloadCard env ext id true with
    | error e => simp [downloadCard, h] at hr
    | ok r =>
      rw [downloadCardRecursive, hr]
      split
      · next e heq => simp at heq
      · next r2 heq => split <;> rfl
  · intro env ext id M d r hdl hch hlt
    rw [downloadCardRecursive, hdl]
    split
    · next e heq => simp at heq
    · next r2 heq =>
      injection heq with h2
      subst h2
      rw [dif_pos ⟨hch, hlt⟩]

/-- Closed instances of the amended C7 theorem: the propagation cases at a
failing card fetch, the success cases at environments where only a
comments fetch fails or a child exists, and the catch equation for the
one-child environment. -/
theorem c7_error_propagation_amended_witness :
    downloadCard envCardFail extId 1 false = .error "card fetch failed"
    ∧ downloadCardRecursive envCardFail extId 1 3 0 = .error "card fetch failed"
    ∧ downloadCard envCommentsFail extId 1 false = .ok
        ⟨demoCard,
         renderCard extId demoCard (fetchCardComments envCommentsFail 1)
           (if false && decide (demoCard.children_count > 0) then fetchCardChildren envCommentsFail 1 else []),
         fetchCardComments envCommentsFail 1,
         (if false && decide (demoCard.children_count > 0) then fetchCardChildren envCommentsFail 1 else [])⟩
    ∧ (downloadCardRecursive envParent extId 1 3 0).isOk = true
    ∧ downloadCardRecursive envParent extId 1 3 0 = .ok (.mk parentResult.card
        (commentFileNamesFrom parentResult.comments)
        (downloadedFilesOf envParent parentResult.card)
        ((parentResult.children.map (fun ch => downloadCardRecursive envParent extId ch.id 3 (0 + 1))).filterMap
          Except.toOption)) :=
  ⟨c7_error_propagation_amended.1 envCardFail extId 1 false "card fetch failed" rfl,
   c7_error_propagation_amended.2.1 envCardFail extId 1 3 0 "card fetch failed" rfl,
   c7_error_propagation_amended.2.2.1 envCommentsFail extId 1 false demoCard rfl,
   c7_error_propagation_amended.2.2.2.1 envParent extId 1 3 0 parentCard rfl,
   c7_error_propagation_amended.2.2.2.2 envParent extId 1 3 0 parentResult rfl
     (by decide) (by decide)⟩

/-- C8: every resource creator rejects a missing required argument or a
missing configured base URL with its descriptive error before any request
is constructed (an error result of the request-phase model means the
function throws before the network call), and the input parser fails a
bare numeric input with a configuration error when no base URL is
configured, without attempting any request. -/
theorem c8_validation_before_network :
    (∀ apiBase, createSpace "" apiBase = .error "name is required")
    ∧ (∀ name, name ≠ "" →
        createSpace name "" = .error "Set environment variable KAITEN_API_BASE_URL")
    ∧ (∀ name apiBase, createBoard "" name apiBase = .error "spaceId is required")
    ∧ (∀ spaceId apiBase, spaceId ≠ "" →
        createBoard spaceId "" apiBase = .error "name is required")
    ∧ (∀ spaceId name, spaceId ≠ "" → name ≠ "" →
        createBoard spaceId name "" = .error "Set environment variable KAITEN_API_BASE_URL")
    ∧ (∀ title apiBase, createColumn "" title apiBase = .error "boardId is required")
    ∧ (∀ boardId apiBase, boardId ≠ "" →
        createColumn boardId "" apiBase = .error "title is required")
    ∧ (∀ boardId title, boardId ≠ "" → title ≠ "" →
        createColumn boardId title "" = .error "Set environment variable KAITEN_API_BASE_URL")
    ∧ (∀ name apiBase, createCard "" name apiBase = .error "boardId is required")
    ∧ (∀ boardId apiBase, boardId ≠ "" →
        createCard boardId "" apiBase = .error "name is required")
    ∧ (∀ boardId name, boardId ≠ "" → name ≠ "" →
        createCard boardId name "" = .error "Set environment variable KAITEN_API_BASE_URL")
    ∧ (∀ (urlParse : String → Option UrlParts) (envBase : Option String) (input : String),
        isDigits (jsTrim input) = true → truthyS envBase = false →
        parseCardInput urlParse envBase input
          = .error "Set environment variable KAITEN_API_BASE_URL for card ID input") := by
  refine ⟨fun apiBase => rfl, ?_, fun name apiBase => rfl, ?_, ?_,
    fun title apiBase => rfl, ?_, ?_, fun name apiBase => rfl, ?_, ?_, ?_⟩
  · intro name hn
    simp [createSpace, hn]
  · intro spaceId apiBase hs
    simp [createBoard, hs]
  · intro spaceId name hs hn
    simp [createBoard, hs, hn]
  · intro boardId apiBase hb
    simp [createColumn, hb]
  · intro boardId title hb ht
    simp [createColumn, hb, ht]
  · intro boardId apiBase hb
    simp [createCard, hb]
  · intro boardId name hb hn
    simp [createCard, hb, hn]
  · intro urlParse envBase input h1 h2
    simp [parseCardInput, h1, h2]

/-- Closed instances of C8: each creator at an empty required argument and
the parser at the bare numeric input 12345 with no configured base URL. -/
theorem c8_validation_before_network_witness :
    createSpace "" "https://h/api/v1" = .error "name is required"
    ∧ createSpace "s" "" = .error "Set environment variable KAITEN_API_BASE_URL"
    ∧ createBoard "" "b" "x" = .error "spaceId is required"
    ∧ createBoard "5" "" "x" = .error "name is required"
    ∧ createBoard "5" "b" "" = .error "Set environment variable KAITEN_API_BASE_URL"
    ∧ createColumn "" "c" "x" = .error "boardId is required"
    ∧ createColumn "7" "" "x" = .error "title is required"
    ∧ createColumn "7" "c" "" = .error "Set environment variable KAITEN_API_BASE_URL"
    ∧ createCard "" "n" "x" = .error "boardId is required"
    ∧ createCard "9" "" "x" = .error "name is required"
    ∧ createCard "9" "n" "" = .error "Set environment variable KAITEN_API_BASE_URL"
    ∧ parseCardInput (fun _ => none) none "12345"
        = .error "Set environment variable KAITEN_API_BASE_URL for card ID input" :=
  ⟨c8_validation_before_network.1 "https://h/api/v1",
   c8_validation_before_network.2.1 "s" (by decide),
   c8_validation_before_network.2.2.1 "b" "x",
   c8_validation_before_network.2.2.2.1 "5" "x" (by decide),
   c8_validation_before_network.2.2.2.2.1 "5" "b" (by decide) (by decide),
   c8_validation_before_network.2.2.2.2.2.1 "c" "x",
   c8_validation_before_network.2.2.2.2.2.2.1 "7" "x" (by decide),
   c8_validation_before_network.2.2.2.2.2.2.2.1 "7" "c" (by decide) (by decide),
   c8_validation_before_network.2.2.2.2.2.2.2.2.1 "n" "x",
   c8_validation_before_network.2.2.2.2.2.2.2.2.2.1 "9" "x" (by decide),
   c8_validation_before_network.2.2.2.2.2.2.2.2.2.2.1 "9" "n" (by decide) (by decide),
   c8_validation_before_network.2.2.2.2.2.2.2.2.2.2.2 (fun _ => none) none "12345"
     (by decide) (by decide)⟩

/-- C9: when column and lane identifiers are not supplied, the board-lookup
createCard first issues the board metadata fetch, resolves the space id
with the first column and the first lane, and then issues the
card-creation POST carrying those resolved identifiers; the ok result
lists the two requests in issue order. -/
theorem c9_createCard_resolves_first_column_lane
    (getBoard : String → Except String BoardData) (boardId name apiBase : String)
    (bd : BoardData) (sid : Nat) (c0 l0 : ColumnRef) (crest lrest : List ColumnRef)
    (hb : boardId ≠ "") (hn : name ≠ "") (ha : apiBase ≠ "")
    (hg : getBoard boardId = .ok bd)
    (hs : bd.space_id = some sid) (hs0 : sid ≠ 0)
    (hc : bd.columns = some (c0 :: crest)) (hc0 : c0.id ≠ 0)
    (hl : bd.lanes = some (l0 :: lrest)) (hl0 : l0.id ≠ 0) :
    createCardWithBoardLookup getBoard boardId name apiBase =
      .ok [⟨"GET", apiBase ++ "/boards/" ++ boardId, []⟩,
        ⟨"POST", apiBase ++ "/spaces/" ++ toString sid ++ "/boards/" ++ boardId ++ "/cards",
          [("title", name), ("column_id", toString c0.id), ("lane_id", toString l0.id)]⟩] := by
  simp [createCardWithBoardLookup, hb, hn, ha, hg, hs, hc, hl, headId, truthyN, hs0, hc0, hl0]

/-- Closed instance of C9 at a concrete board whose metadata carries space
4, first column 6 and first lane 7. -/
theorem c9_createCard_resolves_first_column_lane_witness :
    createCardWithBoardLookup (fun _ => .ok ⟨some 4, some [⟨6⟩], some [⟨7⟩]⟩)
        "12" "N" "https://h/api/v1"
      = .ok [⟨"GET", "https://h/api/v1" ++ "/boards/" ++ "12", []⟩,
        ⟨"POST", "https://h/api/v1" ++ "/spaces/" ++ toString (4 : Nat) ++ "/boards/"
            ++ "12" ++ "/cards",
          [("title", "N"), ("column_id", toString (6 : Nat)), ("lane_id", toString (7 : Nat))]⟩] :=
  c9_createCard_resolves_first_column_lane (fun _ => .ok ⟨some 4, some [⟨6⟩], some [⟨7⟩]⟩)
    "12" "N" "https://h/api/v1" ⟨some 4, some [⟨6⟩], some [⟨7⟩]⟩ 4 ⟨6⟩ ⟨7⟩ [] []
    (by decide) (by decide) (by decide) rfl rfl (by decide) rfl (by decide) rfl (by decide)

/-- The older of two demonstration comments, id 11, created at time 10. -/
def cmtOld : Comment := ⟨some 11, none, 10, none⟩

/-- The newer of two demonstration comments, id 12, created at time 20. -/
def cmtNew : Comment := ⟨some 12, none, 20, none⟩

/-- An environment whose card 1 carries the two demonstration comments in
fetch order older first. -/
def envTwoComments : FetchEnv :=
  { fetchCard := fun _ => .ok demoCard
    fetchComments := fun _ => .ok [cmtOld, cmtNew]
    fetchChildren := fun _ => .ok []
    downloadFile := fun _ => .ok () }

/-- C10: downloadCard returns the comments exactly as fetched in the
original order, the newest-first sorting existing only inside the rendered
Markdown through the sorted copy; the per-comment JSON files are named by
the original fetch-order index starting at 1, not by the sorted order, as
the two-comment example shows where the rendering order is reversed while
the file names follow fetch order. -/
theorem c10_comments_fetch_order :
    (∀ (env : FetchEnv) (ext : Converters) (id : Nat) (inc : Bool) (card : Card)
        (comments : List Comment),
      env.fetchCard id = .ok card → env.fetchComments id = .ok comments →
      downloadCard env ext id inc = .ok
        ⟨card,
         renderCard ext card comments
           (if inc && decide (card.children_count > 0) then fetchCardChildren env id else []),
         comments,
         (if inc && decide (card.children_count > 0) then fetchCardChildren env id else [])⟩)
    ∧ (∀ (env : FetchEnv) (ext : Converters) (id M d : Nat) (card : Card)
        (comments : List Comment),
      env.fetchCard id = .ok card → env.fetchComments id = .ok comments →
      ∃ node : RecNode, downloadCardRecursive env ext id M d = .ok node
        ∧ node.commentFiles = commentFileNamesFrom comments)
    ∧ (∀ comments : List Comment, commentFileNamesFrom comments
        = comments.enum.map (fun p =>
            "comment_" ++ toString (p.1 + 1) ++ "_" ++ commentIdPart p.2 ++ ".json"))
    ∧ sortedCommentsOf [cmtOld, cmtNew] = [cmtNew, cmtOld]
    ∧ commentFileNamesFrom [cmtOld, cmtNew] = ["comment_1_11.json", "comment_2_12.json"] := by
  refine ⟨?_, ?_, fun comments => rfl, by decide, by decide⟩
  · intro env ext id inc card comments h1 h2
    have hfc : fetchCardComments env id = comments := by simp [fetchCardComments, h2]
    rw [downloadCard_ok_eq env ext id inc card h1, hfc]
  · intro env ext id M d card comments h1 h2
    have hfc : fetchCardComments env id = comments := by simp [fetchCardComments, h2]
    have hr := downloadCard_ok_eq env ext id true card h1
    rw [downloadCardRecursive, hr]
    split
    · next e heq => simp at heq
    · next r2 heq =>
      injection heq with h3
      by_cases hcnd : r2.children ≠ [] ∧ d < M
      · rw [dif_pos hcnd]
        refine ⟨_, rfl, ?_⟩
        simp [RecNode.commentFiles, ← h3, hfc]
      · rw [dif_neg hcnd]
        refine ⟨_, rfl, ?_⟩
        simp [RecNode.commentFiles, ← h3, hfc]

/-- Closed instances of C10 at the two-comment environment: downloadCard
hands back the comments in fetch order and the recursive downloader names
the comment files by fetch-order index. -/
theorem c10_comments_fetch_order_witness :
    downloadCard envTwoComments extId 1 false = .ok
      ⟨demoCard,
       renderCard extId demoCard [cmtOld, cmtNew]
         (if false && decide (demoCard.children_count > 0) then fetchCardChildren envTwoComments 1 else []),
       [cmtOld, cmtNew],
       (if false && decide (demoCard.children_count > 0) then fetchCardChildren envTwoComments 1 else [])⟩
    ∧ ∃ node : RecNode, downloadCardRecursive envTwoComments extId 1 3 0 = .ok node
        ∧ node.commentFiles = commentFileNamesFrom [cmtOld, cmtNew] :=
  ⟨c10_comments_fetch_order.1 envTwoComments extId 1 false demoCard [cmtOld, cmtNew] rfl rfl,
   c10_comments_fetch_order.2.1 envTwoComments extId 1 3 0 demoCard [cmtOld, cmtNew] rfl rfl⟩

/-- A demonstration checked item. -/
def itDemo : ChecklistItem := ⟨true, false, false, some "Task", none, none, none, none, none⟩

/-- A demonstration grouped checklist holding the item. -/
def clDemo : Checklist := ⟨some "CL", none, some [itDemo], none⟩

/-- A card with flat checklist items only. -/
def cardFlatOnly : Card := { minimalCard "F" 3 with checklist_items := some [itDemo] }

/-- A card with a grouped checklist and flat items. -/
def cardGrouped : Card :=
  { minimalCard "G" 4 with checklists := some [clDemo], checklist_items := some [itDemo] }

/-- Closed instances of C2: with a grouped checklist present the flat part
emits no Checklist heading, and with flat items only it opens with that
heading. -/
theorem c2_checklist_bullets_witness :
    "### Checklist\n\n" ∉ flatSectionPieces cardGrouped
    ∧ flatSectionPieces cardFlatOnly
        = "### Checklist\n\n" :: ((resolvedFlatItems cardFlatOnly).map itemLine ++ ["\n"]) :=
  ⟨(c2_checklist_bullets cardGrouped).2.2.1 (by decide),
   (c2_checklist_bullets cardFlatOnly).2.2.2 (by decide) (by decide)⟩
